import Mathlib

/-!
Shallow embedding of src/wandb_comparison.py.

The script reads four environment variables, authenticates against the
tracking service, fetches the run tagged baseline, fetches a run by id,
formats a comparison URL and writes it to report_url.txt.

Modelling choices:
* A run is read only through its string id and name fields.
* The external tracking service is an oracle: one function answering the
  filtered run-listing query of api.runs (the filter selects runs tagged
  baseline, so its answer is the list of baseline-tagged runs the service
  yields, in service order), and one answering api.run by path. Either can
  raise; a raised exception is an error value carrying its kind.
* Python truthiness of os.getenv results: None and the empty string are
  falsy, every other string is truthy.
* Effects are made explicit: main returns the process exit code, the list
  of network calls issued in order, the list of file writes performed
  (open with mode w truncates, so a write replaces the whole contents),
  and the log of printed lines.
-/

namespace WandbComparison

/-- A run of the tracking service as read by the script: only the string
id and display name are accessed. -/
structure Run where
  id : String
  name : String
deriving Repr, DecidableEq

/-- Kind of exception the service client can raise: the service reports
no such run, or a transport/API fault. The script catches every
exception; the kind only shows up in the printed message. -/
inductive Fault where
  | notFound
  | serviceError
deriving Repr, DecidableEq

/-- Rendering of a caught exception into the printed error message. -/
def faultMsg : Fault → String
  | Fault.notFound => "NotFound"
  | Fault.serviceError => "ServiceError"

/-- The tracking-service oracle. `runsTaggedBaseline path` is the answer
to api.runs on `path` with the baseline tag filter: the list of runs the
service yields for that query, or a raised fault. `runById path` is the
answer to api.run on `path`: the run, or a raised fault (the service
raises when the run id does not exist). -/
structure Service where
  runsTaggedBaseline : String → Except Fault (List Run)
  runById : String → Except Fault Run

/-- Python truthiness of an os.getenv result: None and the empty string
are falsy. -/
def truthy : Option String → Bool
  | none => false
  | some s => !(s == "")

/-- Embedding of get_baseline_run: query the service for runs tagged
baseline in entity/project, take the first yielded run; None with an
error line when the query raises or yields nothing. Returns the result
together with the printed lines. -/
def get_baseline_run (svc : Service) (entity project : String) :
    Option Run × List String :=
  match svc.runsTaggedBaseline (entity ++ "/" ++ project) with
  | Except.error e => (none, ["Error fetching baseline run: " ++ faultMsg e])
  | Except.ok runs =>
    match runs.head? with
    | none => (none, ["Error: No run found with tag baseline"])
    | some baseline_run =>
      (some baseline_run,
        ["Found baseline run: " ++ baseline_run.id ++ " (" ++ baseline_run.name ++ ")"])

/-- Embedding of get_run_by_id: fetch entity/project/run_id from the
service; None with an error line naming the caught exception when the
service raises. Returns the result together with the printed lines. -/
def get_run_by_id (svc : Service) (entity project run_id : String) :
    Option Run × List String :=
  match svc.runById (entity ++ "/" ++ project ++ "/" ++ run_id) with
  | Except.error e => (none, ["Error fetching run " ++ run_id ++ ": " ++ faultMsg e])
  | Except.ok run => (some run, ["Found run: " ++ run.id ++ " (" ++ run.name ++ ")"])

/-- Embedding of create_comparison_report: pure f-string formatting of
the comparison URL from the two run ids. Field access and string
formatting cannot raise, so the except branch of the source is
unreachable and the result is always some. Returns the URL together with
the printed lines. -/
def create_comparison_report (entity project : String)
    (baseline_run comparison_run : Run) : Option String × List String :=
  let compare_url := "https://wandb.ai/" ++ entity ++ "/" ++ project ++
    "/compare?run=" ++ baseline_run.id ++ "&run=" ++ comparison_run.id
  (some compare_url, ["Created comparison URL: " ++ compare_url])

/-- A network call issued to the tracking service, recorded at the point
where the source invokes the client: wandb.login in main, api.runs
inside get_baseline_run, api.run inside get_run_by_id. -/
inductive NetCall where
  | login (key : String)
  | listRuns (path : String)
  | fetchRun (path : String)
deriving Repr, DecidableEq

/-- Observable outcome of one execution of the script: process exit
code, network calls in order, file writes performed (filename and the
full contents written, since mode w truncates), printed lines. -/
structure Outcome where
  exitCode : Nat
  calls : List NetCall
  writes : List (String × String)
  log : List String
deriving Repr, DecidableEq

/-- Outcome of a validation failure: sys.exit(1) before wandb.login, so
no network call and no file write. -/
def exitMissing (varName : String) : Outcome :=
  { exitCode := 1, calls := [], writes := [],
    log := ["Error: " ++ varName ++ " environment variable not set"] }

/-- The part of main after validation succeeded: login, fetch the
baseline run, fetch the comparison run, build the URL, write
report_url.txt; sys.exit(1) at the first failing step, sys.exit(0) after
the write. -/
def pipeline (key entity project run_id : String) (svc : Service) : Outcome :=
  let log0 := ["Entity: " ++ entity ++ ", Project: " ++ project ++
                 ", Run ID: " ++ run_id,
               "Fetching baseline run..."]
  let calls0 := [NetCall.login key, NetCall.listRuns (entity ++ "/" ++ project)]
  match get_baseline_run svc entity project with
  | (none, log1) =>
    { exitCode := 1, calls := calls0, writes := [],
      log := log0 ++ log1 ++ ["Failed to fetch baseline run"] }
  | (some baseline_run, log1) =>
    let calls1 := calls0 ++
      [NetCall.fetchRun (entity ++ "/" ++ project ++ "/" ++ run_id)]
    let log2h := ["Fetching comparison run: " ++ run_id ++ "..."]
    match get_run_by_id svc entity project run_id with
    | (none, log2) =>
      { exitCode := 1, calls := calls1, writes := [],
        log := log0 ++ log1 ++ log2h ++ log2 ++ ["Failed to fetch run " ++ run_id] }
    | (some comparison_run, log2) =>
      let log3h := ["Creating comparison report..."]
      match create_comparison_report entity project baseline_run comparison_run with
      | (none, log3) =>
        { exitCode := 1, calls := calls1, writes := [],
          log := log0 ++ log1 ++ log2h ++ log2 ++ log3h ++ log3 ++
                 ["Failed to create comparison report"] }
      | (some report_url, log3) =>
        { exitCode := 0, calls := calls1,
          writes := [("report_url.txt", report_url)],
          log := log0 ++ log1 ++ log2h ++ log2 ++ log3h ++ log3 ++
                 ["Success! Comparison report URL: " ++ report_url] }

/-- Embedding of main: read the four environment variables from the
process environment, exit 1 at the first falsy one, otherwise run the
pipeline. -/
def main (env : String → Option String) (svc : Service) : Outcome :=
  let wandb_api_key := env "WANDB_API_KEY"
  let entity := env "WANDB_ENTITY"
  let project := env "WANDB_PROJECT"
  let run_id := env "RUN_ID"
  if truthy wandb_api_key = false then exitMissing "WANDB_API_KEY"
  else if truthy entity = false then exitMissing "WANDB_ENTITY"
  else if truthy project = false then exitMissing "WANDB_PROJECT"
  else if truthy run_id = false then exitMissing "RUN_ID"
  else pipeline (wandb_api_key.getD "") (entity.getD "") (project.getD "")
    (run_id.getD "") svc

/-- The process environment of a run where all four variables are bound
to the given nonempty values. -/
def envMatches (env : String → Option String)
    (key entity project run_id : String) : Prop :=
  env "WANDB_API_KEY" = some key ∧ key ≠ "" ∧
  env "WANDB_ENTITY" = some entity ∧ entity ≠ "" ∧
  env "WANDB_PROJECT" = some project ∧ project ≠ "" ∧
  env "RUN_ID" = some run_id ∧ run_id ≠ ""

/-- When all four environment variables are bound and nonempty, main
runs the pipeline on their values. -/
theorem main_eq_pipeline (env : String → Option String) (svc : Service)
    (key entity project run_id : String)
    (h : envMatches env key entity project run_id) :
    main env svc = pipeline key entity project run_id svc := by
  obtain ⟨h1, h1n, h2, h2n, h3, h3n, h4, h4n⟩ := h
  simp [main, truthy, h1, h2, h3, h4, h1n, h2n, h3n, h4n]

/-- Any falsy required environment variable makes main exit 1 with no
network call. -/
theorem main_exit_of_falsy (env : String → Option String) (svc : Service)
    (h : truthy (env "WANDB_API_KEY") = false ∨
         truthy (env "WANDB_ENTITY") = false ∨
         truthy (env "WANDB_PROJECT") = false ∨
         truthy (env "RUN_ID") = false) :
    (main env svc).exitCode = 1 ∧ (main env svc).calls = [] := by
  unfold main
  by_cases h1 : truthy (env "WANDB_API_KEY") = false <;>
  by_cases h2 : truthy (env "WANDB_ENTITY") = false <;>
  by_cases h3 : truthy (env "WANDB_PROJECT") = false <;>
  by_cases h4 : truthy (env "RUN_ID") = false <;>
    simp_all [exitMissing]

/-- Claim C1: URL construction is pure string formatting yielding
https://wandb.ai/entity/project/compare?run=baseline&run=comparison for
every entity, project and pair of run ids, and on entity acme, project
proj, baseline id abc123, comparison id xyz789 it yields exactly
https://wandb.ai/acme/proj/compare?run=abc123&run=xyz789. -/
theorem c1_url_construction_formatting :
    (∀ (entity project : String) (b c : Run),
      (create_comparison_report entity project b c).1 =
        some ("https://wandb.ai/" ++ entity ++ "/" ++ project ++
          "/compare?run=" ++ b.id ++ "&run=" ++ c.id)) ∧
    (create_comparison_report "acme" "proj"
        ⟨"abc123", "baseline-run"⟩ ⟨"xyz789", "candidate"⟩).1 =
      some "https://wandb.ai/acme/proj/compare?run=abc123&run=xyz789" := by
  constructor
  · intro entity project b c
    rfl
  · rfl

/-- Claim C9: URL construction is total: for every pair of runs the
result is some URL, so the error branch of create_comparison_report is
unreachable. -/
theorem c9_create_total (entity project : String) (b c : Run) :
    ((create_comparison_report entity project b c).1).isSome = true := by
  rfl

/-- Sample environment binding all four variables to nonempty values. -/
def sampleEnv : String → Option String := fun q =>
  if q = "WANDB_API_KEY" then some "key0"
  else if q = "WANDB_ENTITY" then some "acme"
  else if q = "WANDB_PROJECT" then some "proj"
  else if q = "RUN_ID" then some "xyz789"
  else none

/-- Sample environment identical to sampleEnv except that the API key is
absent. -/
def envNoKey : String → Option String := fun q =>
  if q = "WANDB_API_KEY" then none else sampleEnv q

/-- Sample environment identical to sampleEnv except that the API key is
bound to the empty string. -/
def envEmptyKey : String → Option String := fun q =>
  if q = "WANDB_API_KEY" then some "" else sampleEnv q

/-- Sample service yielding no baseline-tagged run and raising NotFound
on every run fetch. -/
def svcEmpty : Service :=
  { runsTaggedBaseline := fun _ => Except.ok []
    runById := fun _ => Except.error Fault.notFound }

/-- Sample service yielding two baseline-tagged runs and answering every
run fetch with a fixed run. -/
def svcTwo : Service :=
  { runsTaggedBaseline := fun _ =>
      Except.ok [⟨"abc123", "baseline-run"⟩, ⟨"def456", "second-baseline"⟩]
    runById := fun _ => Except.ok ⟨"xyz789", "candidate"⟩ }

/-- Sample service raising a transport fault on every query. -/
def svcDown : Service :=
  { runsTaggedBaseline := fun _ => Except.error Fault.serviceError
    runById := fun _ => Except.error Fault.serviceError }

/-- Sample service with a baseline run whose run fetch raises NotFound. -/
def svcNoTarget : Service :=
  { runsTaggedBaseline := fun _ => Except.ok [⟨"abc123", "baseline-run"⟩]
    runById := fun _ => Except.error Fault.notFound }

/-- Claim C3: if any of the four required environment variables is
missing from the process environment, main exits with code 1 and issues
no network call. -/
theorem c3_missing_env_exits_without_network
    (env : String → Option String) (svc : Service)
    (h : env "WANDB_API_KEY" = none ∨ env "WANDB_ENTITY" = none ∨
         env "WANDB_PROJECT" = none ∨ env "RUN_ID" = none) :
    (main env svc).exitCode = 1 ∧ (main env svc).calls = [] := by
  apply main_exit_of_falsy
  rcases h with h | h | h | h
  · exact Or.inl (by rw [h]; rfl)
  · exact Or.inr (Or.inl (by rw [h]; rfl))
  · exact Or.inr (Or.inr (Or.inl (by rw [h]; rfl)))
  · exact Or.inr (Or.inr (Or.inr (by rw [h]; rfl)))

/-- Witness for C3 at a concrete environment missing the API key. -/
theorem c3_missing_env_exits_without_network_witness :
    (main envNoKey svcTwo).exitCode = 1 ∧ (main envNoKey svcTwo).calls = [] :=
  c3_missing_env_exits_without_network envNoKey svcTwo (Or.inl rfl)

/-- Claim C8: an environment variable bound to the empty string is
treated like an absent one: main exits with code 1 before any network
call, for each of the four required variables. -/
theorem c8_empty_env_like_absent
    (env : String → Option String) (svc : Service)
    (h : env "WANDB_API_KEY" = some "" ∨ env "WANDB_ENTITY" = some "" ∨
         env "WANDB_PROJECT" = some "" ∨ env "RUN_ID" = some "") :
    (main env svc).exitCode = 1 ∧ (main env svc).calls = [] := by
  apply main_exit_of_falsy
  rcases h with h | h | h | h
  · exact Or.inl (by rw [h]; rfl)
  · exact Or.inr (Or.inl (by rw [h]; rfl))
  · exact Or.inr (Or.inr (Or.inl (by rw [h]; rfl)))
  · exact Or.inr (Or.inr (Or.inr (by rw [h]; rfl)))

/-- Witness for C8 at a concrete environment binding the API key to the
empty string. -/
theorem c8_empty_env_like_absent_witness :
    (main envEmptyKey svcTwo).exitCode = 1 ∧
    (main envEmptyKey svcTwo).calls = [] :=
  c8_empty_env_like_absent envEmptyKey svcTwo (Or.inl rfl)

/-- Claim C10: the output file is written only after all three steps
succeeded: every execution either exits 0 or performs no file write. -/
theorem c10_no_write_on_failure (env : String → Option String) (svc : Service) :
    (main env svc).exitCode = 0 ∨ (main env svc).writes = [] := by
  unfold main
  by_cases h1 : truthy (env "WANDB_API_KEY") = false <;>
  by_cases h2 : truthy (env "WANDB_ENTITY") = false <;>
  by_cases h3 : truthy (env "WANDB_PROJECT") = false <;>
  by_cases h4 : truthy (env "RUN_ID") = false <;>
    simp_all [exitMissing]
  unfold pipeline
  repeat' split
  all_goals first | exact Or.inl rfl | exact Or.inr rfl

/-- Claim C2: main performs the baseline lookup, then the run-by-id
lookup, then URL construction, in that order, short-circuiting to exit
code 1 at the first failing step with no later step performed; on
success the exit code is 0. -/
theorem c2_orchestration_short_circuit
    (env : String → Option String) (svc : Service)
    (key entity project run_id : String)
    (henv : envMatches env key entity project run_id) :
    ((get_baseline_run svc entity project).1 = none →
      (main env svc).exitCode = 1 ∧
      (main env svc).calls =
        [NetCall.login key, NetCall.listRuns (entity ++ "/" ++ project)] ∧
      (main env svc).writes = []) ∧
    (∀ b, (get_baseline_run svc entity project).1 = some b →
      ((get_run_by_id svc entity project run_id).1 = none →
        (main env svc).exitCode = 1 ∧
        (main env svc).calls =
          [NetCall.login key, NetCall.listRuns (entity ++ "/" ++ project),
           NetCall.fetchRun (entity ++ "/" ++ project ++ "/" ++ run_id)] ∧
        (main env svc).writes = []) ∧
      (∀ c, (get_run_by_id svc entity project run_id).1 = some c →
        (main env svc).exitCode = 0 ∧
        (main env svc).calls =
          [NetCall.login key, NetCall.listRuns (entity ++ "/" ++ project),
           NetCall.fetchRun (entity ++ "/" ++ project ++ "/" ++ run_id)])) := by
  rw [main_eq_pipeline env svc key entity project run_id henv]
  rcases hgb : get_baseline_run svc entity project with ⟨ob, lg1⟩
  constructor
  · intro hnone
    simp only [Prod.fst] at hnone
    subst hnone
    simp [pipeline, hgb]
  · intro b hb
    simp only [Prod.fst] at hb
    subst hb
    rcases hgr : get_run_by_id svc entity project run_id with ⟨oc, lg2⟩
    constructor
    · intro hc
      simp only [Prod.fst] at hc
      subst hc
      simp [pipeline, hgb, hgr]
    · intro c hc
      simp only [Prod.fst] at hc
      subst hc
      simp [pipeline, hgb, hgr, create_comparison_report]

/-- Witness for C2 at a concrete environment and a service yielding no
baseline run: exit 1, only login and the listing call, no write. -/
theorem c2_orchestration_short_circuit_witness :
    (main sampleEnv svcEmpty).exitCode = 1 ∧
    (main sampleEnv svcEmpty).calls =
      [NetCall.login "key0", NetCall.listRuns ("acme" ++ "/" ++ "proj")] ∧
    (main sampleEnv svcEmpty).writes = [] :=
  (c2_orchestration_short_circuit sampleEnv svcEmpty "key0" "acme" "proj"
    "xyz789" ⟨rfl, by decide, rfl, by decide, rfl, by decide, rfl, by decide⟩).1 rfl

/-- Claim C4: on a successful execution main exits 0 and the single file
write is report_url.txt with contents exactly the comparison URL. -/
theorem c4_success_writes_url
    (env : String → Option String) (svc : Service)
    (key entity project run_id : String) (b c : Run)
    (henv : envMatches env key entity project run_id)
    (hb : (get_baseline_run svc entity project).1 = some b)
    (hc : (get_run_by_id svc entity project run_id).1 = some c) :
    (main env svc).exitCode = 0 ∧
    (main env svc).writes =
      [("report_url.txt",
        "https://wandb.ai/" ++ entity ++ "/" ++ project ++
          "/compare?run=" ++ b.id ++ "&run=" ++ c.id)] := by
  rw [main_eq_pipeline env svc key entity project run_id henv]
  rcases hgb : get_baseline_run svc entity project with ⟨ob, lg1⟩
  rw [hgb] at hb
  simp only [Prod.fst] at hb
  subst hb
  rcases hgr : get_run_by_id svc entity project run_id with ⟨oc, lg2⟩
  rw [hgr] at hc
  simp only [Prod.fst] at hc
  subst hc
  simp [pipeline, hgb, hgr, create_comparison_report]

/-- Witness for C4 at a concrete environment and a service with a
baseline run abc123 and target run xyz789. -/
theorem c4_success_writes_url_witness :
    (main sampleEnv svcTwo).exitCode = 0 ∧
    (main sampleEnv svcTwo).writes =
      [("report_url.txt",
        "https://wandb.ai/" ++ "acme" ++ "/" ++ "proj" ++
          "/compare?run=" ++ "abc123" ++ "&run=" ++ "xyz789")] :=
  c4_success_writes_url sampleEnv svcTwo "key0" "acme" "proj" "xyz789"
    ⟨"abc123", "baseline-run"⟩ ⟨"xyz789", "candidate"⟩ ⟨rfl, by decide, rfl, by decide, rfl, by decide, rfl, by decide⟩ rfl rfl

/-- Claim C5: when the service yields zero runs tagged baseline, the
baseline lookup returns no run, and main takes the failure exit. -/
theorem c5_zero_baseline_not_found (svc : Service) (entity project : String)
    (hzero : svc.runsTaggedBaseline (entity ++ "/" ++ project) = Except.ok []) :
    (get_baseline_run svc entity project).1 = none ∧
    ∀ (env : String → Option String) (key run_id : String),
      envMatches env key entity project run_id →
      (main env svc).exitCode = 1 := by
  have hnone : (get_baseline_run svc entity project).1 = none := by
    simp [get_baseline_run, hzero]
  refine ⟨hnone, ?_⟩
  intro env key run_id henv
  rw [main_eq_pipeline env svc key entity project run_id henv]
  rcases hgb : get_baseline_run svc entity project with ⟨ob, lg1⟩
  rw [hgb] at hnone
  simp only [Prod.fst] at hnone
  subst hnone
  simp [pipeline, hgb]

/-- Witness for C5 at a service yielding no baseline-tagged run. -/
theorem c5_zero_baseline_not_found_witness :
    (get_baseline_run svcEmpty "acme" "proj").1 = none ∧
    (main sampleEnv svcEmpty).exitCode = 1 :=
  ⟨(c5_zero_baseline_not_found svcEmpty "acme" "proj" rfl).1,
   (c5_zero_baseline_not_found svcEmpty "acme" "proj" rfl).2 sampleEnv "key0"
     "xyz789" ⟨rfl, by decide, rfl, by decide, rfl, by decide, rfl, by decide⟩⟩

/-- Claim C6: when the service yields one or more runs tagged baseline,
the baseline lookup returns exactly the first yielded run, also when
several runs carry the tag. -/
theorem c6_baseline_first_of_nonempty (svc : Service)
    (entity project : String) (r : Run) (rs : List Run)
    (h : svc.runsTaggedBaseline (entity ++ "/" ++ project) =
      Except.ok (r :: rs)) :
    (get_baseline_run svc entity project).1 = some r := by
  simp [get_baseline_run, h]

/-- Witness for C6 at a service yielding two baseline-tagged runs: the
first one is returned. -/
theorem c6_baseline_first_of_nonempty_witness :
    (get_baseline_run svcTwo "acme" "proj").1 =
      some ⟨"abc123", "baseline-run"⟩ :=
  c6_baseline_first_of_nonempty svcTwo "acme" "proj"
    ⟨"abc123", "baseline-run"⟩ [⟨"def456", "second-baseline"⟩] rfl

/-- Claim C7: an absent run id makes the by-id lookup fail with the
NotFound message, a transport fault makes it fail with the ServiceError
message, the two messages are distinct, and either fault leads main to
the failure exit. -/
theorem c7_run_by_id_failure_kinds (svc : Service)
    (entity project run_id : String) :
    (svc.runById (entity ++ "/" ++ project ++ "/" ++ run_id) =
        Except.error Fault.notFound →
      get_run_by_id svc entity project run_id =
        (none, ["Error fetching run " ++ run_id ++ ": " ++
          faultMsg Fault.notFound])) ∧
    (svc.runById (entity ++ "/" ++ project ++ "/" ++ run_id) =
        Except.error Fault.serviceError →
      get_run_by_id svc entity project run_id =
        (none, ["Error fetching run " ++ run_id ++ ": " ++
          faultMsg Fault.serviceError])) ∧
    faultMsg Fault.notFound ≠ faultMsg Fault.serviceError ∧
    (∀ (env : String → Option String) (key : String) (f : Fault),
      envMatches env key entity project run_id →
      svc.runById (entity ++ "/" ++ project ++ "/" ++ run_id) =
        Except.error f →
      (main env svc).exitCode = 1) := by
  refine ⟨?_, ?_, ?_, ?_⟩
  · intro h
    simp [get_run_by_id, h]
  · intro h
    simp [get_run_by_id, h]
  · decide
  · intro env key f henv hf
    have hnone : (get_run_by_id svc entity project run_id).1 = none := by
      simp [get_run_by_id, hf]
    rw [main_eq_pipeline env svc key entity project run_id henv]
    rcases hgb : get_baseline_run svc entity project with ⟨ob, lg1⟩
    rcases hgr : get_run_by_id svc entity project run_id with ⟨oc, lg2⟩
    rw [hgr] at hnone
    simp only [Prod.fst] at hnone
    subst hnone
    cases ob
    · simp [pipeline, hgb]
    · simp [pipeline, hgb, hgr]

/-- Witness for C7 at a service whose run fetch raises NotFound while a
baseline run exists. -/
theorem c7_run_by_id_failure_kinds_witness :
    get_run_by_id svcNoTarget "acme" "proj" "xyz789" =
      (none, ["Error fetching run " ++ "xyz789" ++ ": " ++
        faultMsg Fault.notFound]) ∧
    (main sampleEnv svcNoTarget).exitCode = 1 :=
  ⟨(c7_run_by_id_failure_kinds svcNoTarget "acme" "proj" "xyz789").1 rfl,
   (c7_run_by_id_failure_kinds svcNoTarget "acme" "proj" "xyz789").2.2.2
     sampleEnv "key0" Fault.notFound ⟨rfl, by decide, rfl, by decide, rfl, by decide, rfl, by decide⟩ rfl⟩

end WandbComparison
